import Mathlib

/-!
Verification development for the momentera event planner
(`src/event_class.py`).  The Python code is shallowly embedded: the
dynamic event/task dictionaries become Lean structures, Python's
`datetime.date` becomes the `PyDate` structure together with the
constructor-side validity check (`mkDate`), floats are modelled as
rationals, fallible operations return `Option`/`Except`, and the
`while` loop of `upcoming_events` becomes a fuel-indexed recursion.
-/

namespace Momentera

/-! ### Calendar arithmetic (`add_months`, `add_years`, `datetime.date`) -/

/-- A Python `datetime.date` value: plain year/month/day fields.
Validity (what the `datetime.date` constructor enforces) is checked by
`mkDate`. -/
structure PyDate where
  year : Int
  month : Int
  day : Int
deriving DecidableEq, Repr

/-- The standard Gregorian leap-year rule, as written inline in
`add_months` (`year % 4 == 0 and (year % 100 != 0 or year % 400 == 0)`).
Python's `%` with a positive modulus agrees with `Int.emod`. -/
def isLeap (y : Int) : Bool :=
  y % 4 == 0 && (y % 100 != 0 || y % 400 == 0)

/-- The month-length table `[31, 29 if leap else 28, 31, 30, 31, 30, 31,
31, 30, 31, 30, 31]` of `add_months`, indexed here by the month number
(1..12).  `datetime.date` validates days against the same table.  Months
outside 1..12 map to 0 (the code never indexes the table out of range). -/
def daysInMonth (y m : Int) : Int :=
  if m == 1 then 31
  else if m == 2 then (if isLeap y then 29 else 28)
  else if m == 3 then 31
  else if m == 4 then 30
  else if m == 5 then 31
  else if m == 6 then 30
  else if m == 7 then 31
  else if m == 8 then 31
  else if m == 9 then 30
  else if m == 10 then 31
  else if m == 11 then 30
  else if m == 12 then 31
  else 0

/-- The range check performed by the `datetime.date` constructor:
`MINYEAR = 1 <= year <= MAXYEAR = 9999`, `1 <= month <= 12`,
`1 <= day <= days_in_month(year, month)`. -/
def dateOk (y m d : Int) : Bool :=
  1 ≤ y && y ≤ 9999 && 1 ≤ m && m ≤ 12 && 1 ≤ d && d ≤ daysInMonth y m

/-- `datetime.date(y, m, d)`: returns the date or raises `ValueError`
(modelled as `none`). -/
def mkDate (y m d : Int) : Option PyDate :=
  if dateOk y m d then some ⟨y, m, d⟩ else none

/-- A `PyDate` that the `datetime.date` constructor accepts (every date
obtained from `strptime` or from date arithmetic is of this form). -/
def PyDate.Valid (d : PyDate) : Prop :=
  dateOk d.year d.month d.day = true

instance (d : PyDate) : Decidable d.Valid := by
  unfold PyDate.Valid; infer_instance

/-- Python `date` comparison (`<`): lexicographic on (year, month, day). -/
def pyLt (a b : PyDate) : Bool :=
  a.year < b.year ||
    (a.year == b.year &&
      (a.month < b.month || (a.month == b.month && a.day < b.day)))

/-- Python `date` comparison (`<=`): lexicographic on (year, month, day). -/
def pyLe (a b : PyDate) : Bool :=
  a.year < b.year ||
    (a.year == b.year &&
      (a.month < b.month || (a.month == b.month && a.day ≤ b.day)))

/-- CPython `_days_before_month(year, month)`: days in the year strictly
before the first of `month` (cumulative table plus a leap-day adjustment
for months after February). -/
def daysBeforeMonth (y m : Int) : Int :=
  (if m == 1 then 0
   else if m == 2 then 31
   else if m == 3 then 59
   else if m == 4 then 90
   else if m == 5 then 120
   else if m == 6 then 151
   else if m == 7 then 181
   else if m == 8 then 212
   else if m == 9 then 243
   else if m == 10 then 273
   else if m == 11 then 304
   else 334)
  + (if 2 < m && isLeap y then 1 else 0)

/-- CPython `date.toordinal()` (`_ymd2ord`): day number with
0001-01-01 ↦ 1.  `Int.fdiv` is Python's floor division `//`. -/
def toOrdinal (d : PyDate) : Int :=
  365 * (d.year - 1) + Int.fdiv (d.year - 1) 4 - Int.fdiv (d.year - 1) 100
    + Int.fdiv (d.year - 1) 400 + daysBeforeMonth d.year d.month + d.day

/-- CPython `_ord2ymd(n)`: inverse of `toOrdinal`, by decomposing into
400-, 100-, 4- and 1-year cycles exactly as the CPython source does.
`Int.fdiv`/`Int.fmod` are Python's `//` and `%`. -/
def fromOrdinal (n0 : Int) : PyDate :=
  let n := n0 - 1
  let n400 := Int.fdiv n 146097
  let n1r := Int.fmod n 146097
  let n100 := Int.fdiv n1r 36524
  let n2r := Int.fmod n1r 36524
  let n4 := Int.fdiv n2r 1461
  let n3r := Int.fmod n2r 1461
  let n1 := Int.fdiv n3r 365
  let nd := Int.fmod n3r 365
  let year := n400 * 400 + 1 + n100 * 100 + n4 * 4 + n1
  if n1 == 4 || n100 == 4 then
    ⟨year - 1, 12, 31⟩
  else
    let month := Int.fdiv (nd + 50) 32
    let preceding := daysBeforeMonth year month
    if nd < preceding then
      let month' := month - 1
      let preceding' := preceding - (daysInMonth year month')
      ⟨year, month', nd - preceding' + 1⟩
    else
      ⟨year, month, nd - preceding + 1⟩

/-- `date + timedelta(days = k)`: ordinal arithmetic with the
`datetime` range check (`OverflowError` outside ordinals 1..3652059,
i.e. 0001-01-01 .. 9999-12-31). -/
def addDays (d : PyDate) (k : Int) : Option PyDate :=
  let n := toOrdinal d + k
  if 1 ≤ n && n ≤ 3652059 then some (fromOrdinal n) else none

/-- `(a - b).days` for two Python dates. -/
def daysBetween (b a : PyDate) : Int :=
  toOrdinal a - toOrdinal b

/-- `EventPlanner.add_months(date, months)` (src/event_class.py:370-402):
month index arithmetic with year carry, day clamped to the target
month's length, then `datetime.date(year, month, day)`.  The `except`
branch evaluates the same constructor call again, so a `ValueError`
(year out of range) propagates: that is the `none` case here.
Python's `//` and `%` are `Int.fdiv`/`Int.fmod`. -/
def add_months (d : PyDate) (months : Int) : Option PyDate :=
  let m0 := d.month - 1 + months
  let year := d.year + Int.fdiv m0 12
  let month := Int.fmod m0 12 + 1
  let day := min d.day (daysInMonth year month)
  mkDate year month day

/-- `EventPlanner.add_years(date, years)` (src/event_class.py:404-424):
`date.replace(year = year + years)`, falling back to Feb 28 of the
target year when that raises (Feb 29 source, non-leap target); a year
out of range makes both attempts raise (`none`). -/
def add_years (d : PyDate) (years : Int) : Option PyDate :=
  match mkDate (d.year + years) d.month d.day with
  | some r => some r
  | none => mkDate (d.year + years) 2 28

/-! ### Data model

Events and tasks are Python dicts whose date-valued entries are strings
parsed on demand with `strptime("%Y-%m-%d")` and whose budget entries go
through `float(...)`.  A stored date string is abstracted by what the
only operation ever applied to it (`strptime`) does with it: it is
empty, it parses to a date, or parsing raises `ValueError` (e.g. the
recurrence sentinel string `"No end"`).  Budgets are numbers or numeric
strings (`float` succeeds, modelled exactly by a rational), non-numeric
strings (`float` raises `ValueError`), or Python `None`:
`_input_valid_float` returns `None` after five failed attempts
(src/event_class.py:110-111), and both `add_tasks`
(src/event_class.py:932, stored at 939 without the `None` guard that
`edit_task` line 1040 and `assign_budget_to_task` line 1509 apply) and
`create_event` (src/event_class.py:464, stored at 477) store that
`None` verbatim.  `float(None)` raises `TypeError`, and `None`
arithmetic raises `TypeError` — neither is caught by an
`except ValueError`. -/

/-- The two Python exception classes these budget paths can raise. -/
inductive PyErr where
  /-- `ValueError`, e.g. `float` on a non-numeric string -/
  | valueError : PyErr
  /-- `TypeError`, e.g. `float(None)` or `None - x` -/
  | typeError : PyErr
deriving DecidableEq, Repr

/-- A stored date string, classified by the outcome of
`datetime.datetime.strptime(s, "%Y-%m-%d")`. -/
inductive DStr where
  /-- the empty string (falsy in Python) -/
  | empty : DStr
  /-- a string that `strptime` parses to the date `d` -/
  | valid (d : PyDate) : DStr
  /-- a non-empty string on which `strptime` raises `ValueError`
  (for example the recurrence sentinel `"No end"`) -/
  | malformed : DStr
deriving DecidableEq, Repr

/-- `strptime(s, "%Y-%m-%d").date()`, with `ValueError` as `none`. -/
def parseD : DStr → Option PyDate
  | .valid d => some d
  | _ => none

/-- A stored budget value, classified by the outcome of `float(...)`. -/
inductive BVal where
  /-- a number or numeric string; `float` yields the value `q` -/
  | num (q : ℚ) : BVal
  /-- a non-numeric string; `float` raises `ValueError` -/
  | badStr : BVal
  /-- Python `None`, as stored when `_input_valid_float` exhausts its
  retries; `float(None)` raises `TypeError` -/
  | pyNone : BVal
deriving DecidableEq, Repr

/-- `float(v)`, with the exception class it raises when it fails. -/
def BVal.toFloat : BVal → Except PyErr ℚ
  | .num q => .ok q
  | .badStr => .error .valueError
  | .pyNone => .error .typeError

/-- The value `float(v)` parses, when it parses (used to state what the
tolerant summation adds up). -/
def BVal.float? : BVal → Option ℚ
  | .num q => some q
  | _ => none

/-- A task dict: `{task, deadline, priority, status, budget}`
(src/event_class.py:934-940 and 902-908). -/
structure Task where
  task : String
  deadline : DStr
  priority : String
  status : String
  budget : BVal
deriving DecidableEq, Repr

/-- A recurrence dict `{enabled, frequency, interval, until}` built by
`get_recurrence` (src/event_class.py:299-304).  `until = none` models a
missing/`None` entry (`recurrence.get("until")` is falsy then). -/
structure Recurrence where
  enabled : Bool
  frequency : String
  interval : Int
  until_ : Option DStr
deriving DecidableEq, Repr

/-- An event dict as stored by `create_event`
(src/event_class.py:471-486).  The fields not touched by the claims
under verification (tags, times, ...) carry their source types but play
no role below. -/
structure Event where
  date : DStr
  notes : String
  tags : List String
  category : String
  priority : String
  /-- `_input_valid_float`'s result: a non-negative float, or the
  `None` it returns after five invalid attempts, stored verbatim by
  `create_event` (src/event_class.py:464, 477) -/
  budget : Option ℚ
  pinned : Bool
  starred : Bool
  reminder_days : Int
  start_time : String
  end_time : String
  recurrence : Recurrence
  tasks : List Task
  archived_tasks : List Task
deriving DecidableEq, Repr

/-! ### The repository: `events` / `archived_events` dictionaries

Python dicts preserve insertion order; they are embedded as association
lists with dict update semantics (`d[k] = v` replaces in place when the
key exists, otherwise appends; `d.pop(k)` removes the entry). -/

/-- Insertion-ordered dictionary. -/
abbrev Dict (α : Type) := List (String × α)

/-- `k in d`. -/
def dictMem (k : String) (d : Dict α) : Bool :=
  d.any (fun p => p.1 == k)

/-- `d.get(k)` / `d[k]` lookup. -/
def dictGet (k : String) (d : Dict α) : Option α :=
  (d.find? (fun p => p.1 == k)).map (fun p => p.2)

/-- `d[k] = v`: replace in place if present, else append. -/
def dictSet (k : String) (v : α) (d : Dict α) : Dict α :=
  if dictMem k d then
    d.map (fun p => if p.1 == k then (k, v) else p)
  else
    d ++ [(k, v)]

/-- `d.pop(k)`: drop the entry for `k`. -/
def dictPop (k : String) (d : Dict α) : Dict α :=
  d.filter (fun p => p.1 != k)

/-- The planner's mutable state: the two event namespaces
(src/event_class.py:28-29). -/
structure PlannerState where
  events : Dict Event
  archived_events : Dict Event
deriving DecidableEq, Repr

/-- `EventPlanner.create_event` (src/event_class.py:447-487), with the
interactive field collection abstracted into the finished record `ev`:
an empty or duplicate (case-normalized) name aborts before any
mutation; otherwise the event is stored.  The `Bool` is the success of
the write. -/
def create_event (st : PlannerState) (name : String) (ev : Event) :
    PlannerState × Bool :=
  if name == "" then (st, false)
  else if dictMem name st.events then (st, false)
  else ({ st with events := dictSet name ev st.events }, true)

/-- `manage_event_archive`, choice 1 (src/event_class.py:851-857):
`self.archived_events[name] = self.events.pop(name)` whenever the name
is active, with no check on the archived namespace. -/
def archive_event (st : PlannerState) (name : String) :
    PlannerState × Bool :=
  match dictGet name st.events with
  | some ev =>
      (⟨dictPop name st.events, dictSet name ev st.archived_events⟩, true)
  | none => (st, false)

/-- `manage_event_archive`, choice 3 (src/event_class.py:864-873):
restore is refused when an active event already has the name. -/
def restore_event (st : PlannerState) (name : String) :
    PlannerState × Bool :=
  match dictGet name st.archived_events with
  | some ev =>
      if dictMem name st.events then (st, false)
      else (⟨dictSet name ev st.events, dictPop name st.archived_events⟩, true)
  | none => (st, false)

/-! ### Task insertion / edit and the deadline check -/

/-- The deadline check of `add_tasks` (src/event_class.py:916-927) and
`edit_task`, option 2 (src/event_class.py:1020-1032), shared verbatim by
the two call sites: an empty deadline is stored unchecked (`if deadline:`
is false); otherwise the deadline and the event date are parsed — any
`ValueError` clears the deadline with a warning — and with recurrence
disabled a deadline after the event date is cleared with a warning.
Returns the deadline that is stored and whether a warning was spoken. -/
def validate_deadline (deadline : DStr) (eventDate : DStr)
    (recurrenceEnabled : Bool) : DStr × Bool :=
  match deadline with
  | .empty => (.empty, false)
  | dl =>
      match parseD dl, parseD eventDate with
      | some task_date, some event_date =>
          if !recurrenceEnabled && pyLt event_date task_date then
            (.empty, true)
          else (dl, false)
      | _, _ => (.empty, true)

/-- The interactive branch of `add_tasks` (src/event_class.py:912-943):
the task is appended in every case, with the deadline the check lets
through.  The `Bool` is the deadline warning. -/
def add_task_interactive (e : Event) (text : String) (deadline : DStr)
    (priority status : String) (budget : ℚ) : Event × Bool :=
  let vd := validate_deadline deadline e.date e.recurrence.enabled
  ({ e with tasks :=
      e.tasks ++ [⟨text, vd.1, priority, status, BVal.num budget⟩] }, vd.2)

/-- The batch branch of `add_tasks` (src/event_class.py:900-911): every
record of `task_list` is appended as-is (after `.get` defaulting, which
the `Task` record already carries) — no deadline check runs on this
path. -/
def add_tasks_batch (e : Event) (task_list : List Task) : Event :=
  { e with tasks := e.tasks ++ task_list }

/-- `edit_task`, option 2 (src/event_class.py:1020-1032): the task's
deadline is overwritten with whatever the shared check lets through. -/
def edit_task_deadline (t : Task) (e : Event) (deadline : DStr) : Task :=
  { t with deadline := (validate_deadline deadline e.date e.recurrence.enabled).1 }

/-- One task respects the spec's deadline invariant against its event:
whenever both its deadline and the event date parse, the deadline is on
or before the event date. -/
def taskDeadlineOk (e : Event) (t : Task) : Bool :=
  match parseD t.deadline, parseD e.date with
  | some d, some ed => pyLe d ed
  | _, _ => true

/-- The spec's deadline invariant (spec.md §3): with recurrence
disabled, every stored active task's deadline, when present, is on or
before the event's date. -/
def deadlineInvariant (e : Event) : Prop :=
  e.recurrence.enabled = false → ∀ t ∈ e.tasks, taskDeadlineOk e t = true

instance (e : Event) : Decidable (deadlineInvariant e) := by
  unfold deadlineInvariant; infer_instance

/-! ### Budget aggregation (`view_event_budget_summary`) -/

/-- The summation loop of `view_event_budget_summary`
(src/event_class.py:1551-1556) with explicit accumulator:
`total_task += float(t.get("budget", 0))` per task; the
`except ValueError` skips the entry, but a `TypeError` — `float(None)`
on a `None` budget — is not caught and aborts the whole summary. -/
def total_task_budget_loop (acc : ℚ) : List Task → Except PyErr ℚ
  | [] => .ok acc
  | t :: rest =>
      match t.budget.toFloat with
      | .ok q => total_task_budget_loop (acc + q) rest
      | .error .valueError => total_task_budget_loop acc rest
      | .error .typeError => .error .typeError

/-- The summation loop, started at `total_task = 0`. -/
def total_task_budget (tasks : List Task) : Except PyErr ℚ :=
  total_task_budget_loop 0 tasks

/-- Python `int(x)` on a float: truncation toward zero, computed on the
reduced numerator/denominator (for a non-negative argument this is the
floor). -/
def pyInt (q : ℚ) : Int :=
  if 0 ≤ q.num then Int.ediv q.num (Int.ofNat q.den)
  else -(Int.ediv (-q.num) (Int.ofNat q.den))

/-- The output of the budget summary. -/
structure BudgetSummary where
  total : ℚ
  remaining : ℚ
  usagePercent : Option Int
deriving DecidableEq, Repr

/-- `view_event_budget_summary` (src/event_class.py:1551-1573): the
summation loop, then `remaining = event_budget - total_task`
(line 1559, raising `TypeError` when the stored event budget is `None`)
and — only when the event budget is strictly positive —
`min(int(total_task / event_budget * 100), 999)`.  A `TypeError` from
either step propagates to the caller (`.error`). -/
def view_event_budget_summary (e : Event) : Except PyErr BudgetSummary :=
  match total_task_budget e.tasks with
  | .error err => .error err
  | .ok total_task =>
      match e.budget with
      | none => .error .typeError
      | some event_budget =>
          let remaining := event_budget - total_task
          let used :=
            if 0 < event_budget then
              some (min (pyInt (total_task / event_budget * 100)) 999)
            else none
          .ok ⟨total_task, remaining, used⟩

/-! ### Task sorting (`sort_tasks`, deadline key) -/

/-- A value the `by_deadline` key function can produce besides Python's
`None`: a `datetime` parsed by `strptime` (midnight of the date) or the
`datetime.datetime.max` sentinel used for missing deadlines. -/
inductive SortKey where
  | dt (d : PyDate) : SortKey
  | dtMax : SortKey
deriving DecidableEq, Repr

/-- `by_deadline` (src/event_class.py:1272-1286): empty deadline ↦
`datetime.max`; parsable deadline ↦ its `datetime`; `ValueError` ↦
Python `None` (modelled as `none`). -/
def by_deadline (t : Task) : Option SortKey :=
  match t.deadline with
  | .empty => some .dtMax
  | .valid d => some (.dt d)
  | .malformed => none

/-- `<` on the key values `by_deadline` produces.  `strptime` results
carry time 00:00, so every one of them precedes `datetime.max`
(23:59:59.999999), even on the same day. -/
def keyLt : SortKey → SortKey → Bool
  | .dt a, .dt b => pyLt a b
  | .dt _, .dtMax => true
  | .dtMax, _ => false

/-- Python `<` applied to two key values during `list.sort`: comparing
`None` with a `datetime` (in either order) raises `TypeError`, modelled
as `Except.error`. -/
def pyKeyLt : Option SortKey → Option SortKey → Except Unit Bool
  | some a, some b => .ok (keyLt a b)
  | _, _ => .error ()

/-- Insert a task into an already sorted prefix, comparing keys with
Python `<`: the new element goes after every element whose key is not
greater (keeping the sort stable), and any `TypeError` aborts. -/
def insertTask (key : Task → Option SortKey) (t : Task) :
    List Task → Except Unit (List Task)
  | [] => .ok [t]
  | x :: xs => do
      let b ← pyKeyLt (key t) (key x)
      if b then
        return t :: x :: xs
      else
        let rest ← insertTask key t xs
        return x :: rest

/-- `task_list.sort(key=...)` (src/event_class.py:1309), modelled as a
stable insertion sort over Python `<` on key values.  CPython's sort is
stable and raises `TypeError` as soon as it compares `None` with a
`datetime`; on a two-element list it performs exactly the one comparison
this model performs. -/
def py_sort (key : Task → Option SortKey) (l : List Task) :
    Except Unit (List Task) :=
  l.foldlM (fun acc t => insertTask key t acc) []

/-! ### The upcoming-events sweep (`upcoming_events`)

The `while next_date <= limit_date` loop (src/event_class.py:1650-1665)
is embedded as a fuel-indexed recursion: `none` covers both the loop
ending without a hit (normal exit, `break` on an unrecognized frequency,
an exception caught by the surrounding `try`) and fuel running out
(which only under-approximates a loop that Python would spin longer in;
every theorem below holds for every fuel value). -/

/-- `0 <= (d - today).days <= 7`: the 7-day reporting window. -/
def inWindow (today d : PyDate) : Bool :=
  0 ≤ daysBetween today d && daysBetween today d ≤ 7

/-- One advance of `next_date` by the frequency dispatch
(src/event_class.py:1655-1665): `daily` adds `interval` days, `weekly`
adds `interval` weeks, `monthly`/`yearly` use the calendar arithmetic;
an unrecognized frequency produces no successor (the loop breaks), and a
date-arithmetic failure (`none` from the helpers) is the exception the
surrounding `try` swallows. -/
def stepNext (freq : String) (interval : Int) (d : PyDate) : Option PyDate :=
  if freq == "daily" then addDays d interval
  else if freq == "weekly" then addDays d (7 * interval)
  else if freq == "monthly" then add_months d interval
  else if freq == "yearly" then add_years d interval
  else none

/-- The candidate occurrence `i` steps after `base` (the value
`next_date` holds when the loop body runs for the `i`-th time, if the
dispatch produces one). -/
def candSeq (freq : String) (interval : Int) (base : PyDate) :
    Nat → Option PyDate
  | 0 => some base
  | i + 1 =>
      match stepNext freq interval base with
      | some b' => candSeq freq interval b' i
      | none => none

/-- `limit_date` (src/event_class.py:1646): parse `until` when it is
truthy — `strptime("No end")` raises, skipping the event — else
`today + timedelta(days=365)`. -/
def limitOf (today : PyDate) (r : Recurrence) : Option PyDate :=
  match r.until_ with
  | some (.valid u) => some u
  | some .malformed => none
  | some .empty => addDays today 365
  | none => addDays today 365

/-- The `while next_date <= limit_date` loop: report the first candidate
inside the window, else advance; `break` (unrecognized frequency),
normal exit and exceptions all yield `none`. -/
def recurLoop (today limit : PyDate) (freq : String) (interval : Int) :
    Nat → PyDate → Option PyDate
  | 0, _ => none
  | fuel + 1, next =>
      if pyLe next limit then
        if inWindow today next then some next
        else
          match stepNext freq interval next with
          | some next' => recurLoop today limit freq interval fuel next'
          | none => none
      else none

/-- The per-event body of `upcoming_events` (src/event_class.py:1631-1668):
parse the event date (any exception skips the event); a non-recurring
event is reported when its date is in the window; a recurring event
runs the bounded loop.  The result is the date spoken for the event, if
any. -/
def checkEvent (fuel : Nat) (today : PyDate) (e : Event) : Option PyDate :=
  match parseD e.date with
  | none => none
  | some base_date =>
      if !e.recurrence.enabled then
        if inWindow today base_date then some base_date else none
      else
        match limitOf today e.recurrence with
        | none => none
        | some limit =>
            recurLoop today limit e.recurrence.frequency
              e.recurrence.interval fuel base_date

/-- `upcoming_events`: one pass over the events dict, collecting the
`(name, date)` pairs that are spoken. -/
def upcoming_events (fuel : Nat) (events : Dict Event) (today : PyDate) :
    List (String × PyDate) :=
  events.filterMap
    (fun p => (checkEvent fuel today p.2).map (fun d => (p.1, d)))

/-! ### Concrete instances used in counterexamples and witnesses -/

/-- A recurrence record with recurrence off. -/
def baseRec : Recurrence := ⟨false, "", 1, none⟩

/-- A minimal valid event dated 2025-06-01. -/
def baseEvent : Event :=
  ⟨.valid ⟨2025, 6, 1⟩, "", [], "", "Medium", some 0, false, false, 0, "", "",
    baseRec, [], []⟩

/-- A daily recurring event whose `until` holds the `"No end"` sentinel
(exactly what `get_recurrence` stores when the user types `none`). -/
def exNoEnd : Event :=
  { baseEvent with recurrence := ⟨true, "daily", 1, some .malformed⟩ }

/-- A recurring event with an unrecognized frequency and no `until`
entry. -/
def exBadFreq : Event :=
  { baseEvent with recurrence := ⟨true, "fortnightly", 1, none⟩ }

/-- The spec's budget example: event budget 1000, task budgets 400 and
800. -/
def exBudget : Event :=
  { baseEvent with
    budget := some 1000,
    tasks := [⟨"a", .empty, "Medium", "Pending", .num 400⟩,
              ⟨"b", .empty, "Medium", "Pending", .num 800⟩] }

/-- Event budget 3 with a single task budget 2: usage ratio 200/3 %,
which truncation and rounding separate. -/
def exBudget3 : Event :=
  { baseEvent with
    budget := some 3,
    tasks := [⟨"a", .empty, "Medium", "Pending", .num 2⟩] }

/-- An event holding a task whose budget is the stored `None` that
`_input_valid_float` produces after five invalid attempts
(src/event_class.py:110-111, 932, 939): `float(None)` raises
`TypeError`, which `except ValueError` does not catch. -/
def exNoneTaskEvent : Event :=
  { baseEvent with
    budget := some 1000,
    tasks := [⟨"a", .empty, "Medium", "Pending", .num 400⟩,
              ⟨"n", .empty, "Medium", "Pending", .pyNone⟩] }

/-- An event whose own budget is the stored `None` of `create_event`
(src/event_class.py:464, 477): `event_budget - total_task` raises
`TypeError` at src/event_class.py:1559. -/
def exNoneBudgetEvent : Event :=
  { baseEvent with
    budget := none,
    tasks := [⟨"a", .empty, "Medium", "Pending", .num 400⟩] }

/-- A task whose deadline string does not parse. -/
def exMalformedTask : Task := ⟨"bad", .malformed, "Medium", "Pending", .num 0⟩

/-- A task with a valid deadline. -/
def exValidTask : Task := ⟨"good", .valid ⟨2025, 1, 1⟩, "Medium", "Pending", .num 0⟩

/-- A non-recurring event dated 2025-01-10 (the spec's deadline
validation example). -/
def exEventJan10 : Event := { baseEvent with date := .valid ⟨2025, 1, 10⟩ }

/-- A task whose deadline 2025-01-15 lies after `exEventJan10`'s date. -/
def exLateTask : Task := ⟨"x", .valid ⟨2025, 1, 15⟩, "Medium", "Pending", .num 0⟩

/-- A non-recurring event dated 2025-06-03 (inside the 7-day window of
2025-06-01). -/
def exNearEvent : Event := { baseEvent with date := .valid ⟨2025, 6, 3⟩ }

/-- A repository state whose active and archived namespaces both hold
the name `"party"` (with different payloads). -/
def exState : PlannerState :=
  ⟨[("party", baseEvent)], [("party", exEventJan10)]⟩

/-! ### Helper lemmas -/

/-- Every month of the table has at least 28 days. -/
theorem daysInMonth_ge (y m : Int) (h1 : 1 ≤ m) (h2 : m ≤ 12) :
    28 ≤ daysInMonth y m := by
  interval_cases m <;> (unfold daysInMonth; norm_num) <;>
    split_ifs <;> norm_num

/-- Unfolding of the `datetime.date` range check. -/
theorem dateOk_true_iff (y m d : Int) :
    dateOk y m d = true ↔
      1 ≤ y ∧ y ≤ 9999 ∧ 1 ≤ m ∧ m ≤ 12 ∧ 1 ≤ d ∧ d ≤ daysInMonth y m := by
  unfold dateOk
  simp [Bool.and_eq_true, decide_eq_true_eq, and_assoc]

/-- Looking up a key right after `d[k] = v` returns `v`. -/
theorem dictGet_dictSet (k : String) (v : α) (d : Dict α) :
    dictGet k (dictSet k v d) = some v := by
  have hmem : ∀ d0 : Dict α, dictMem k d0 = true →
      ((d0.map fun p => if p.1 == k then (k, v) else p).find?
        fun p => p.1 == k) = some (k, v) := by
    intro d0
    induction d0 with
    | nil => intro h; simp [dictMem] at h
    | cons p rest ih =>
        intro h
        cases hpk : p.1 == k with
        | false =>
            have hrest : dictMem k rest = true := by
              simp [dictMem, hpk] at h ⊢
              exact h
            simp only [List.map_cons, hpk, if_false]
            rw [List.find?_cons_of_neg _ (by simp [hpk]), ih hrest]
        | true =>
            simp only [List.map_cons, hpk, if_true]
            rw [List.find?_cons_of_pos _ (by simp)]
  have hnot : ∀ d0 : Dict α, dictMem k d0 = false →
      ((d0 ++ [(k, v)]).find? fun p => p.1 == k) = some (k, v) := by
    intro d0
    induction d0 with
    | nil => intro _; simp [List.find?_cons_of_pos]
    | cons p rest ih =>
        intro h
        have hpk : (p.1 == k) = false := by
          cases hpk : p.1 == k
          · rfl
          · simp [dictMem, hpk] at h
        have hrest : dictMem k rest = false := by
          simp [dictMem, hpk] at h ⊢
          exact h
        rw [List.cons_append, List.find?_cons_of_neg _ (by simp [hpk]), ih hrest]
  unfold dictGet dictSet
  by_cases hm : dictMem k d = true
  · rw [if_pos hm, hmem d hm]; rfl
  · rw [if_neg hm, hnot d (by simpa using hm)]; rfl

/-- After `d.pop(k)` the key `k` is gone. -/
theorem dictMem_dictPop (k : String) (d : Dict α) :
    dictMem k (dictPop k d) = false := by
  induction d with
  | nil => rfl
  | cons p rest ih =>
      simp only [dictPop, List.filter_cons] at ih ⊢
      cases hbe : p.1 != k with
      | false => simpa [hbe] using ih
      | true =>
          have hpk : (p.1 == k) = false := by
            cases h2 : p.1 == k
            · rfl
            · rw [bne, h2] at hbe; simp at hbe
          simp only [hbe, if_true, dictMem, List.any_cons, hpk, Bool.false_or]
          exact ih

/-! ### Claim theorems -/

/-- Claim C6, counterexample to "never errors": 9999-12-01 is a valid
`datetime.date`, yet adding one month drives the year to 10000, outside
`datetime`'s range, so the constructor raises `ValueError` — and the
`except` branch re-raises it.  `none` is that error. -/
theorem add_months_out_of_range_errors :
    (⟨9999, 12, 1⟩ : PyDate).Valid ∧ add_months ⟨9999, 12, 1⟩ 1 = none := by
  decide

/-- Claim C6 (amended): for every date and month count, `add_months`
computes the target month as `(month-1+n) mod 12` with floor-division
year carry, clamps the day to the target month's length under the
standard leap rule, and returns without error whenever the target year
stays within `datetime`'s range 1..9999 (outside it, the constructor's
`ValueError` propagates). -/
theorem add_months_spec (d : PyDate) (n : Int) (hv : d.Valid)
    (hy1 : 1 ≤ d.year + Int.fdiv (d.month - 1 + n) 12)
    (hy2 : d.year + Int.fdiv (d.month - 1 + n) 12 ≤ 9999) :
    add_months d n =
      some ⟨d.year + Int.fdiv (d.month - 1 + n) 12,
            Int.fmod (d.month - 1 + n) 12 + 1,
            min d.day
              (daysInMonth (d.year + Int.fdiv (d.month - 1 + n) 12)
                (Int.fmod (d.month - 1 + n) 12 + 1))⟩ := by
  have hm0 : 0 ≤ Int.fmod (d.month - 1 + n) 12 := by
    rw [Int.fmod_eq_emod _ (by norm_num)]
    exact Int.emod_nonneg _ (by norm_num)
  have hm1 : Int.fmod (d.month - 1 + n) 12 < 12 :=
    Int.fmod_lt_of_pos _ (by norm_num)
  have hday : 1 ≤ d.day := by
    have h := (dateOk_true_iff d.year d.month d.day).mp hv
    omega
  have h28 : 28 ≤ daysInMonth (d.year + Int.fdiv (d.month - 1 + n) 12)
      (Int.fmod (d.month - 1 + n) 12 + 1) :=
    daysInMonth_ge _ _ (by omega) (by omega)
  have hok : dateOk (d.year + Int.fdiv (d.month - 1 + n) 12)
      (Int.fmod (d.month - 1 + n) 12 + 1)
      (min d.day
        (daysInMonth (d.year + Int.fdiv (d.month - 1 + n) 12)
          (Int.fmod (d.month - 1 + n) 12 + 1))) = true := by
    rw [dateOk_true_iff]
    refine ⟨hy1, hy2, by omega, by omega, by omega, min_le_right _ _⟩
  unfold add_months mkDate
  rw [if_pos hok]

/-- Witness for `add_months_spec`: the spec's two examples, derived from
the theorem at concrete inputs. -/
theorem add_months_spec_witness :
    (⟨2024, 1, 31⟩ : PyDate).Valid
    ∧ add_months ⟨2024, 1, 31⟩ 1 = some ⟨2024, 2, 29⟩
    ∧ add_months ⟨2023, 1, 31⟩ 1 = some ⟨2023, 2, 28⟩ := by
  refine ⟨by decide, ?_, ?_⟩
  · exact (add_months_spec ⟨2024, 1, 31⟩ 1 (by decide) (by decide)
      (by decide)).trans (by decide)
  · exact (add_months_spec ⟨2023, 1, 31⟩ 1 (by decide) (by decide)
      (by decide)).trans (by decide)

/-- Claim C8: creating an event whose name is already active, and
restoring an archived event whose name is already active, both fail and
leave the whole repository state (both namespaces) untouched. -/
theorem duplicate_name_rejected_without_mutation (st : PlannerState)
    (name : String) (ev : Event) (h : dictMem name st.events = true) :
    create_event st name ev = (st, false)
    ∧ restore_event st name = (st, false) := by
  constructor
  · unfold create_event
    by_cases h0 : (name == "") = true
    · rw [if_pos h0]
    · rw [if_neg h0, if_pos h]
  · unfold restore_event
    cases hg : dictGet name st.archived_events with
    | none => rfl
    | some ev2 => simp [h]

/-- Witness for `duplicate_name_rejected_without_mutation`, on a state
whose active and archived namespaces both hold the name. -/
theorem duplicate_name_rejected_without_mutation_witness :
    dictMem "party" exState.events = true
    ∧ create_event exState "party" exNearEvent = (exState, false)
    ∧ restore_event exState "party" = (exState, false) := by
  refine ⟨by decide, ?_, ?_⟩
  · exact (duplicate_name_rejected_without_mutation exState "party"
      exNearEvent (by decide)).1
  · exact (duplicate_name_rejected_without_mutation exState "party"
      exNearEvent (by decide)).2

/-- Claim C10: archiving an active event always succeeds — the archived
namespace is not checked — the event leaves the active set, and the
archived entry for the name afterwards holds the archived event's
payload, silently replacing any previously archived event of the same
name. -/
theorem archive_overwrites_archived_namespace (st : PlannerState)
    (name : String) (ev : Event) (h : dictGet name st.events = some ev) :
    (archive_event st name).2 = true
    ∧ (archive_event st name).1.events = dictPop name st.events
    ∧ dictMem name (archive_event st name).1.events = false
    ∧ dictGet name (archive_event st name).1.archived_events = some ev := by
  unfold archive_event
  rw [h]
  exact ⟨rfl, rfl, dictMem_dictPop name st.events,
    dictGet_dictSet name ev st.archived_events⟩

/-- Witness for `archive_overwrites_archived_namespace`: archiving
`"party"` in a state that also has an archived `"party"` succeeds and
replaces the archived payload. -/
theorem archive_overwrites_archived_namespace_witness :
    dictGet "party" exState.events = some baseEvent
    ∧ dictMem "party" exState.archived_events = true
    ∧ dictGet "party" exState.archived_events = some exEventJan10
    ∧ (archive_event exState "party").2 = true
    ∧ dictGet "party" (archive_event exState "party").1.archived_events
        = some baseEvent := by
  refine ⟨by decide, by decide, by decide, ?_, ?_⟩
  · exact (archive_overwrites_archived_namespace exState "party" baseEvent
      (by decide)).1
  · exact (archive_overwrites_archived_namespace exState "party" baseEvent
      (by decide)).2.2.2

/-- Claim C1 (code bug): a daily recurring event whose `until` holds the
`"No end"` sentinel and whose next occurrence is today is never
reported by the sweep: `strptime("No end")` raises `ValueError` inside
the per-event `try` (src/event_class.py:1646, 1666-1668) and the event
is skipped before the enumeration loop starts, where the claim promises
the 365-day horizon and a report. -/
theorem no_end_recurring_event_never_reported :
    exNoEnd.recurrence.enabled = true
    ∧ exNoEnd.recurrence.until_ = some .malformed
    ∧ parseD exNoEnd.date = some ⟨2025, 6, 1⟩
    ∧ inWindow ⟨2025, 6, 1⟩ ⟨2025, 6, 1⟩ = true
    ∧ upcoming_events 1000 [("standup", exNoEnd)] ⟨2025, 6, 1⟩ = [] := by
  decide

/-- Claim C2 (code bug): `by_deadline` maps an unparsable deadline to
Python `None` (not a maximal sentinel), so the first comparison between
that key and a real `datetime` key raises `TypeError` and the sort
fails, in either input order. -/
theorem sort_tasks_malformed_deadline_raises :
    by_deadline exMalformedTask = none
    ∧ by_deadline exValidTask = some (.dt ⟨2025, 1, 1⟩)
    ∧ py_sort by_deadline [exMalformedTask, exValidTask] = .error ()
    ∧ py_sort by_deadline [exValidTask, exMalformedTask] = .error () :=
  ⟨rfl, rfl, rfl, rfl⟩

/-- Claim C5 (code bug): the batch branch of `add_tasks` appends the
supplied records without any deadline check, so inserting a task whose
deadline 2025-01-15 exceeds the non-recurring event's date 2025-01-10
breaks the spec's deadline invariant that held beforehand. -/
theorem add_tasks_batch_bypasses_deadline_invariant :
    exEventJan10.recurrence.enabled = false
    ∧ deadlineInvariant exEventJan10
    ∧ (add_tasks_batch exEventJan10 [exLateTask]).tasks = [exLateTask]
    ∧ ¬ deadlineInvariant (add_tasks_batch exEventJan10 [exLateTask]) := by
  decide

/-- Totality of the Python date order: `a <= b` is the negation of
`b < a`. -/
theorem pyLe_iff_not_lt (a b : PyDate) :
    pyLe a b = true ↔ ¬ pyLt b a = true := by
  unfold pyLe pyLt
  simp only [Bool.or_eq_true, Bool.and_eq_true, beq_iff_eq,
    decide_eq_true_eq]
  omega

/-- Claim C4: with the parent event's recurrence enabled a (parsable)
deadline is stored as-is; with recurrence disabled it is kept exactly
when it is on or before the event date, and otherwise the task is still
created/edited but its deadline is cleared to empty with a warning — at
both the interactive insert and the edit call site. -/
theorem validate_deadline_spec (e : Event) (text prio stat : String)
    (b : ℚ) (dl ed : PyDate) (hed : e.date = DStr.valid ed) :
    (e.recurrence.enabled = true →
      add_task_interactive e text (.valid dl) prio stat b
        = ({ e with tasks :=
              e.tasks ++ [⟨text, .valid dl, prio, stat, .num b⟩] }, false))
    ∧ (e.recurrence.enabled = false → pyLe dl ed = true →
      add_task_interactive e text (.valid dl) prio stat b
        = ({ e with tasks :=
              e.tasks ++ [⟨text, .valid dl, prio, stat, .num b⟩] }, false))
    ∧ (e.recurrence.enabled = false → pyLe dl ed = false →
      add_task_interactive e text (.valid dl) prio stat b
        = ({ e with tasks :=
              e.tasks ++ [⟨text, .empty, prio, stat, .num b⟩] }, true))
    ∧ (∀ t : Task, e.recurrence.enabled = true →
        edit_task_deadline t e (.valid dl) = { t with deadline := .valid dl })
    ∧ (∀ t : Task, e.recurrence.enabled = false → pyLe dl ed = true →
        edit_task_deadline t e (.valid dl) = { t with deadline := .valid dl })
    ∧ (∀ t : Task, e.recurrence.enabled = false → pyLe dl ed = false →
        edit_task_deadline t e (.valid dl) = { t with deadline := .empty }) := by
  have hkeep : ∀ h2 : pyLe dl ed = true, pyLt ed dl = false := by
    intro h2
    cases h3 : pyLt ed dl
    · rfl
    · exact absurd h3 ((pyLe_iff_not_lt dl ed).mp h2)
  have hdrop : ∀ h2 : pyLe dl ed = false, pyLt ed dl = true := by
    intro h2
    cases h3 : pyLt ed dl
    · have := (pyLe_iff_not_lt dl ed).mpr (by simp [h3])
      rw [this] at h2
      exact absurd h2 (by simp)
    · rfl
  refine ⟨?_, ?_, ?_, ?_, ?_, ?_⟩
  · intro h1
    simp [add_task_interactive, validate_deadline, parseD, hed, h1]
  · intro h1 h2
    simp [add_task_interactive, validate_deadline, parseD, hed, h1,
      hkeep h2]
  · intro h1 h2
    simp [add_task_interactive, validate_deadline, parseD, hed, h1,
      hdrop h2]
  · intro t h1
    simp [edit_task_deadline, validate_deadline, parseD, hed, h1]
  · intro t h1 h2
    simp [edit_task_deadline, validate_deadline, parseD, hed, h1,
      hkeep h2]
  · intro t h1 h2
    simp [edit_task_deadline, validate_deadline, parseD, hed, h1,
      hdrop h2]

/-- Witness for `validate_deadline_spec`: the spec's example — event
date 2025-01-10, recurrence disabled; deadline 2025-01-05 is kept,
deadline 2025-01-15 is cleared while the task is still added. -/
theorem validate_deadline_spec_witness :
    exEventJan10.date = DStr.valid ⟨2025, 1, 10⟩
    ∧ exEventJan10.recurrence.enabled = false
    ∧ pyLe ⟨2025, 1, 5⟩ ⟨2025, 1, 10⟩ = true
    ∧ add_task_interactive exEventJan10 "t" (.valid ⟨2025, 1, 5⟩)
        "Medium" "Pending" 0
        = ({ exEventJan10 with tasks := exEventJan10.tasks ++
              [⟨"t", .valid ⟨2025, 1, 5⟩, "Medium", "Pending", .num 0⟩] },
           false)
    ∧ pyLe ⟨2025, 1, 15⟩ ⟨2025, 1, 10⟩ = false
    ∧ add_task_interactive exEventJan10 "t" (.valid ⟨2025, 1, 15⟩)
        "Medium" "Pending" 0
        = ({ exEventJan10 with tasks := exEventJan10.tasks ++
              [⟨"t", .empty, "Medium", "Pending", .num 0⟩] }, true) := by
  refine ⟨rfl, rfl, by decide, ?_, by decide, ?_⟩
  · exact (validate_deadline_spec exEventJan10 "t" "Medium" "Pending" 0
      ⟨2025, 1, 5⟩ ⟨2025, 1, 10⟩ rfl).2.1 rfl (by decide)
  · exact (validate_deadline_spec exEventJan10 "t" "Medium" "Pending" 0
      ⟨2025, 1, 15⟩ ⟨2025, 1, 10⟩ rfl).2.2.1 rfl (by decide)

/-- On a task list free of stored `None` budgets, the summation loop
completes and adds up exactly the parsable budgets (skipping
`ValueError` entries). -/
theorem total_task_budget_loop_ok (ts : List Task) :
    ∀ acc : ℚ, (∀ t ∈ ts, t.budget ≠ BVal.pyNone) →
      total_task_budget_loop acc ts
        = .ok (acc + (ts.filterMap (fun t => t.budget.float?)).sum) := by
  induction ts with
  | nil => intro acc _; simp [total_task_budget_loop]
  | cons t rest ih =>
      intro acc h
      have hrest : ∀ x ∈ rest, x.budget ≠ BVal.pyNone := by
        intro x hx
        exact h x (by simp [hx])
      cases hb : t.budget with
      | num q =>
          simp only [total_task_budget_loop, hb, BVal.toFloat]
          rw [ih _ hrest]
          simp [List.filterMap_cons, hb, BVal.float?, add_assoc]
      | badStr =>
          simp only [total_task_budget_loop, hb, BVal.toFloat]
          rw [ih _ hrest]
          simp [List.filterMap_cons, hb, BVal.float?]
      | pyNone => exact absurd hb (h t (by simp))

/-- A stored `None` budget anywhere in the list aborts the summation
loop with `TypeError` (`float(None)` is not a `ValueError`). -/
theorem total_task_budget_loop_err (ts : List Task) :
    ∀ acc : ℚ, (∃ t ∈ ts, t.budget = BVal.pyNone) →
      total_task_budget_loop acc ts = .error .typeError := by
  induction ts with
  | nil => intro acc h; simp at h
  | cons t rest ih =>
      intro acc h
      cases hb : t.budget with
      | pyNone => simp only [total_task_budget_loop, hb, BVal.toFloat]
      | num q =>
          have hrest : ∃ x ∈ rest, x.budget = BVal.pyNone := by
            rcases h with ⟨x, hx, hpx⟩
            rcases List.mem_cons.mp hx with rfl | hx2
            · exact absurd hpx (by simp [hb])
            · exact ⟨x, hx2, hpx⟩
          simp only [total_task_budget_loop, hb, BVal.toFloat]
          exact ih _ hrest
      | badStr =>
          have hrest : ∃ x ∈ rest, x.budget = BVal.pyNone := by
            rcases h with ⟨x, hx, hpx⟩
            rcases List.mem_cons.mp hx with rfl | hx2
            · exact absurd hpx (by simp [hb])
            · exact ⟨x, hx2, hpx⟩
          simp only [total_task_budget_loop, hb, BVal.toFloat]
          exact ih _ hrest

/-- Claim C3 counterexample: with event budget 3 and one task budget 2
the usage ratio is 200/3 ≈ 66.67 % and the code's `int()` truncation
reports 66 where the claimed `round` gives 67; moreover the sum does
abort — a stored `None` task budget (from `_input_valid_float` retry
exhaustion) makes `float(None)` raise a `TypeError` that the loop's
`except ValueError` does not catch, and a stored `None` event budget
makes `remaining = event_budget - total_task` raise `TypeError` instead
of computing the claimed remaining. -/
theorem usage_percent_truncates_not_rounds :
    view_event_budget_summary exBudget3 = .ok ⟨2, 1, some 66⟩
    ∧ round ((2 : ℚ) / 3 * 100) = 67
    ∧ view_event_budget_summary exNoneTaskEvent = .error .typeError
    ∧ view_event_budget_summary exNoneBudgetEvent = .error .typeError := by
  refine ⟨?_, ?_, ?_, ?_⟩
  · simp only [view_event_budget_summary, total_task_budget,
      total_task_budget_loop, exBudget3, baseEvent, BVal.toFloat]
    norm_num [pyInt]
  · rw [round_eq]
    norm_num
  · rfl
  · rfl

/-- Claim C3 (amended): on budget records free of the stored Python
`None` (task budgets that are numbers or strings, and a numeric event
budget), the summary sums the parsable task budgets skipping
`ValueError` entries, reports `remaining = event budget − total`
(possibly negative), and exactly when the event budget is strictly
positive reports the `int()`-truncation (not `round`) of
`total / budget * 100` capped at 999; a stored `None` task budget or a
stored `None` event budget instead aborts the summary with an uncaught
`TypeError`. -/
theorem view_event_budget_summary_spec :
    (∀ (e : Event) (b : ℚ), e.budget = some b →
      (∀ t ∈ e.tasks, t.budget ≠ BVal.pyNone) →
      view_event_budget_summary e
        = .ok ⟨(e.tasks.filterMap (fun t => t.budget.float?)).sum,
               b - (e.tasks.filterMap (fun t => t.budget.float?)).sum,
               if 0 < b then
                 some (min (pyInt
                   ((e.tasks.filterMap (fun t => t.budget.float?)).sum
                     / b * 100)) 999)
               else none⟩)
    ∧ (∀ e : Event, (∃ t ∈ e.tasks, t.budget = BVal.pyNone) →
        view_event_budget_summary e = .error .typeError)
    ∧ (∀ e : Event, e.budget = none →
        view_event_budget_summary e = .error .typeError) := by
  refine ⟨?_, ?_, ?_⟩
  · intro e b hb hnn
    unfold view_event_budget_summary total_task_budget
    rw [total_task_budget_loop_ok e.tasks 0 hnn, hb]
    simp [zero_add]
  · intro e hex
    unfold view_event_budget_summary total_task_budget
    rw [total_task_budget_loop_err e.tasks 0 hex]
  · intro e hb
    unfold view_event_budget_summary total_task_budget
    by_cases hex : ∃ t ∈ e.tasks, t.budget = BVal.pyNone
    · rw [total_task_budget_loop_err e.tasks 0 hex]
    · push_neg at hex
      rw [total_task_budget_loop_ok e.tasks 0 hex, hb]

/-- Witness for `view_event_budget_summary_spec`: the spec's example —
budget 1000, task budgets 400 and 800 (none of them the stored `None`)
give total 1200, remaining −200, usage 120. -/
theorem view_event_budget_summary_spec_witness :
    exBudget.budget = some 1000
    ∧ (∀ t ∈ exBudget.tasks, t.budget ≠ BVal.pyNone)
    ∧ view_event_budget_summary exBudget
        = .ok ⟨(exBudget.tasks.filterMap (fun t => t.budget.float?)).sum,
               1000 - (exBudget.tasks.filterMap
                  (fun t => t.budget.float?)).sum,
               if (0 : ℚ) < 1000 then
                 some (min (pyInt
                   ((exBudget.tasks.filterMap
                      (fun t => t.budget.float?)).sum / 1000 * 100)) 999)
               else none⟩
    ∧ view_event_budget_summary exBudget = .ok ⟨1200, -200, some 120⟩ := by
  refine ⟨rfl, by decide, ?_, ?_⟩
  · exact view_event_budget_summary_spec.1 exBudget 1000 rfl (by decide)
  · simp only [view_event_budget_summary, total_task_budget,
      total_task_budget_loop, exBudget, baseEvent, BVal.toFloat]
    norm_num [pyInt]

/-- Soundness of the enumeration loop: a reported date is the first
candidate (in the `candSeq` order starting at the loop's entry value)
that lies in the window — every earlier candidate was within the limit
and outside the window. -/
theorem recurLoop_first_occurrence (today limit : PyDate) (freq : String)
    (iv : Int) :
    ∀ (fuel : Nat) (next d : PyDate),
      recurLoop today limit freq iv fuel next = some d →
      ∃ i, candSeq freq iv next i = some d
        ∧ inWindow today d = true ∧ pyLe d limit = true
        ∧ ∀ j < i, ∃ c, candSeq freq iv next j = some c
            ∧ pyLe c limit = true ∧ inWindow today c = false := by
  intro fuel
  induction fuel with
  | zero => intro next d h; simp [recurLoop] at h
  | succ f ih =>
      intro next d h
      unfold recurLoop at h
      cases h1 : pyLe next limit with
      | false => rw [if_neg (by simp [h1])] at h; simp at h
      | true =>
          rw [if_pos h1] at h
          cases h2 : inWindow today next with
          | true =>
              rw [if_pos h2] at h
              obtain rfl : next = d := by injection h
              refine ⟨0, by simp [candSeq], h2, h1, ?_⟩
              intro j hj
              exact absurd hj (Nat.not_lt_zero j)
          | false =>
              rw [if_neg (by simp [h2])] at h
              cases hs : stepNext freq iv next with
              | none => rw [hs] at h; simp at h
              | some next' =>
                  rw [hs] at h
                  obtain ⟨i, hc, hw, hl, hprev⟩ := ih next' d h
                  refine ⟨i + 1, ?_, hw, hl, ?_⟩
                  · show candSeq freq iv next (i + 1) = some d
                    unfold candSeq
                    rw [hs]
                    exact hc
                  · intro j hj
                    cases j with
                    | zero => exact ⟨next, by simp [candSeq], h1, h2⟩
                    | succ j' =>
                        obtain ⟨c, hc', hl', hw'⟩ := hprev j' (by omega)
                        refine ⟨c, ?_, hl', hw'⟩
                        show candSeq freq iv next (j' + 1) = some c
                        unfold candSeq
                        rw [hs]
                        exact hc'

/-- The sweep emits at most one report per stored event: per name, the
report count never exceeds the entry count of the dict. -/
theorem upcoming_events_countP_le (fuel : Nat) (today : PyDate)
    (evs : Dict Event) (n : String) :
    (upcoming_events fuel evs today).countP (fun r => r.1 == n)
      ≤ evs.countP (fun p => p.1 == n) := by
  induction evs with
  | nil => simp [upcoming_events]
  | cons p rest ih =>
      unfold upcoming_events at ih ⊢
      rw [List.filterMap_cons]
      cases hc : checkEvent fuel today p.2 with
      | none =>
          simp only [Option.map_none', List.countP_cons]
          split_ifs <;> omega
      | some d =>
          simp only [Option.map_some', List.countP_cons]
          split_ifs <;> omega

/-- Claim C7: in the 7-day sweep a non-recurring (parsable) event is
reported exactly when `0 ≤ (date − today).days ≤ 7`; a recurring event
that gets reported is reported with the first candidate of its
recurrence sequence that falls in the window (all earlier candidates
were within the limit but outside the window); and each event yields at
most one report per sweep. -/
theorem upcoming_events_sweep_spec (fuel : Nat) (today : PyDate) :
    (∀ e base, e.recurrence.enabled = false → parseD e.date = some base →
      checkEvent fuel today e
        = (if inWindow today base = true then some base else none))
    ∧ (∀ e d, e.recurrence.enabled = true →
        checkEvent fuel today e = some d →
        ∃ base limit, parseD e.date = some base
          ∧ limitOf today e.recurrence = some limit
          ∧ ∃ i, candSeq e.recurrence.frequency e.recurrence.interval base i
                = some d
              ∧ inWindow today d = true ∧ pyLe d limit = true
              ∧ ∀ j < i, ∃ c,
                  candSeq e.recurrence.frequency e.recurrence.interval base j
                    = some c
                  ∧ pyLe c limit = true ∧ inWindow today c = false)
    ∧ (∀ (evs : Dict Event) (n : String),
        (upcoming_events fuel evs today).countP (fun r => r.1 == n)
          ≤ evs.countP (fun p => p.1 == n)) := by
  refine ⟨?_, ?_, ?_⟩
  · intro e base h1 h2
    unfold checkEvent
    rw [h2]
    simp [h1]
  · intro e d h1 h2
    unfold checkEvent at h2
    cases hp : parseD e.date with
    | none => rw [hp] at h2; exact absurd h2 (by simp)
    | some base =>
        rw [hp] at h2
        simp only [h1, Bool.not_true] at h2
        rw [if_neg (by simp)] at h2
        cases hl : limitOf today e.recurrence with
        | none => rw [hl] at h2; exact absurd h2 (by simp)
        | some limit =>
            rw [hl] at h2
            obtain ⟨i, hc, hw, hle, hprev⟩ :=
              recurLoop_first_occurrence today limit e.recurrence.frequency
                e.recurrence.interval fuel base d h2
            exact ⟨base, limit, rfl, rfl, i, hc, hw, hle, hprev⟩
  · intro evs n
    exact upcoming_events_countP_le fuel today evs n

/-- Witness for `upcoming_events_sweep_spec`: the non-recurring clause
applied to an event two days ahead of today. -/
theorem upcoming_events_sweep_spec_witness :
    exNearEvent.recurrence.enabled = false
    ∧ parseD exNearEvent.date = some ⟨2025, 6, 3⟩
    ∧ checkEvent 5 ⟨2025, 6, 1⟩ exNearEvent
        = (if inWindow ⟨2025, 6, 1⟩ ⟨2025, 6, 3⟩ = true
            then some ⟨2025, 6, 3⟩ else none) := by
  refine ⟨rfl, rfl, ?_⟩
  exact (upcoming_events_sweep_spec 5 ⟨2025, 6, 1⟩).1 exNearEvent
    ⟨2025, 6, 3⟩ rfl rfl

/-- Claim C9, counterexample to "empty result": a recurring event with
the unrecognized frequency `"fortnightly"` whose base date is today is
still reported — the loop tests the base date against the window before
it consults the frequency, and only then breaks. -/
theorem unrecognized_frequency_base_still_reported :
    exBadFreq.recurrence.enabled = true
    ∧ exBadFreq.recurrence.frequency = "fortnightly"
    ∧ (exBadFreq.recurrence.frequency ≠ "daily"
        ∧ exBadFreq.recurrence.frequency ≠ "weekly"
        ∧ exBadFreq.recurrence.frequency ≠ "monthly"
        ∧ exBadFreq.recurrence.frequency ≠ "yearly")
    ∧ upcoming_events 100 [("odd", exBadFreq)] ⟨2025, 6, 1⟩
        = [("odd", ⟨2025, 6, 1⟩)] := by
  decide

/-- Claim C9 (amended): an unrecognized frequency never raises and
never produces a successor candidate — the enumeration stops right
after the base date, which is itself still tested against the window
and reported when it lies in the window (and within the limit). -/
theorem unrecognized_frequency_spec (fuel : Nat) (today : PyDate)
    (e : Event) (base limit : PyDate)
    (hrec : e.recurrence.enabled = true)
    (hd : e.recurrence.frequency ≠ "daily")
    (hw : e.recurrence.frequency ≠ "weekly")
    (hm : e.recurrence.frequency ≠ "monthly")
    (hy : e.recurrence.frequency ≠ "yearly")
    (hbase : parseD e.date = some base)
    (hlim : limitOf today e.recurrence = some limit)
    (hfuel : 1 ≤ fuel) :
    stepNext e.recurrence.frequency e.recurrence.interval base = none
    ∧ checkEvent fuel today e
      = (if (pyLe base limit && inWindow today base) = true
          then some base else none) := by
  have hstep : ∀ d0 : PyDate,
      stepNext e.recurrence.frequency e.recurrence.interval d0 = none := by
    intro d0
    unfold stepNext
    simp only [beq_iff_eq]
    split_ifs <;> simp_all
  obtain ⟨f, rfl⟩ : ∃ f, fuel = f + 1 := ⟨fuel - 1, by omega⟩
  refine ⟨hstep base, ?_⟩
  unfold checkEvent
  rw [hbase]
  simp only [hrec, Bool.not_true]
  rw [if_neg (by simp), hlim]
  cases h1 : pyLe base limit with
  | false => simp [recurLoop, h1]
  | true =>
      cases h2 : inWindow today base with
      | true => simp [recurLoop, h1, h2]
      | false => simp [recurLoop, h1, h2, hstep base]

/-- Witness for `unrecognized_frequency_spec`, at the concrete
`"fortnightly"` event with base date = today. -/
theorem unrecognized_frequency_spec_witness :
    limitOf ⟨2025, 6, 1⟩ exBadFreq.recurrence = some ⟨2026, 6, 1⟩
    ∧ checkEvent 3 ⟨2025, 6, 1⟩ exBadFreq
        = (if (pyLe ⟨2025, 6, 1⟩ ⟨2026, 6, 1⟩
              && inWindow ⟨2025, 6, 1⟩ ⟨2025, 6, 1⟩) = true
            then some ⟨2025, 6, 1⟩ else none) := by
  refine ⟨by decide, ?_⟩
  exact (unrecognized_frequency_spec 3 ⟨2025, 6, 1⟩ exBadFreq ⟨2025, 6, 1⟩
    ⟨2026, 6, 1⟩ rfl (by decide) (by decide) (by decide) (by decide) rfl
    (by decide) (by omega)).2

end Momentera
